import Mathlib

/-!
Verification of the lead-sync engine (sync_manager / instantly / millionverifier /
json_sanitize modules) against its natural-language specification.

The Python code is shallowly embedded: Python values moving through the pipeline
are modelled by the inductive type `PyVal`; every remote HTTP interaction is
modelled by an explicit environment record whose fields answer the calls, and
the functions under verification additionally return the trace of remote calls
they issued, so that "issues no create call"-style properties are statable.
-/

namespace LeadSync

/-- Model of the Python values that flow through the sync pipeline: `None`,
booleans, integers, finite floats (only their truthiness and identity matter
to the code under verification, so the payload is an `Int` model value),
the non-finite floats `nan`/`inf`/`-inf`, strings, `datetime`/`date` values
(carried as their `isoformat()` string), lists, tuples and string-keyed dicts
(insertion-ordered association lists, as in Python). -/
inductive PyVal where
  | none
  | bool (b : Bool)
  | int (n : Int)
  | floatFinite (v : Int)
  | nan
  | inf
  | negInf
  | str (s : String)
  | dt (iso : String)
  | list (xs : List PyVal)
  | tuple (xs : List PyVal)
  | dict (kvs : List (String × PyVal))
deriving Repr

mutual

/-- Structural equality on `PyVal` (models `==` between values of like type;
the code under verification only compares strings with strings). -/
def pyEq : PyVal → PyVal → Bool
  | PyVal.none, PyVal.none => true
  | PyVal.bool a, PyVal.bool b => a == b
  | PyVal.int a, PyVal.int b => a == b
  | PyVal.floatFinite a, PyVal.floatFinite b => a == b
  | PyVal.nan, PyVal.nan => true
  | PyVal.inf, PyVal.inf => true
  | PyVal.negInf, PyVal.negInf => true
  | PyVal.str a, PyVal.str b => a == b
  | PyVal.dt a, PyVal.dt b => a == b
  | PyVal.list a, PyVal.list b => pyEqList a b
  | PyVal.tuple a, PyVal.tuple b => pyEqList a b
  | PyVal.dict a, PyVal.dict b => pyEqDict a b
  | _, _ => false

def pyEqList : List PyVal → List PyVal → Bool
  | [], [] => true
  | x :: xs, y :: ys => pyEq x y && pyEqList xs ys
  | _, _ => false

def pyEqDict : List (String × PyVal) → List (String × PyVal) → Bool
  | [], [] => true
  | (k, v) :: xs, (k2, v2) :: ys => k == k2 && pyEq v v2 && pyEqDict xs ys
  | _, _ => false

end

/-- Python truthiness (`bool(v)`): `None`, `False`, zero numbers, empty
strings/containers are falsy; note that `nan` is truthy in Python. -/
def pyTruthy : PyVal → Bool
  | PyVal.none => false
  | PyVal.bool b => b
  | PyVal.int n => n != 0
  | PyVal.floatFinite v => v != 0
  | PyVal.nan => true
  | PyVal.inf => true
  | PyVal.negInf => true
  | PyVal.str s => s != ""
  | PyVal.dt _ => true
  | PyVal.list xs => !xs.isEmpty
  | PyVal.tuple xs => !xs.isEmpty
  | PyVal.dict kvs => !kvs.isEmpty

/-- Python `str(v)` for the scalar values the code formats. Containers are
rendered as an opaque placeholder: the code under verification only ever
compares `str(v)` with `"1"` or splices it into a longer message, and a
container rendering can never equal `"1"`. -/
def pyStr : PyVal → String
  | PyVal.none => "None"
  | PyVal.bool b => if b then "True" else "False"
  | PyVal.int n => toString n
  | PyVal.floatFinite v => toString v ++ ".0"
  | PyVal.nan => "nan"
  | PyVal.inf => "inf"
  | PyVal.negInf => "-inf"
  | PyVal.str s => s
  | PyVal.dt iso => iso
  | PyVal.list _ => "[...]"
  | PyVal.tuple _ => "(...)"
  | PyVal.dict _ => "\x7b...\x7d"

/-- First binding for key `k` in a string-keyed association list. -/
def dictFind : List (String × PyVal) → String → Option PyVal
  | [], _ => Option.none
  | (k2, v) :: rest, k => if k2 == k then some v else dictFind rest k

/-- Python `d.get(k)` on a dict: first binding for `k`, default `None`.
This total version is used only where the receiver is a dict by
construction (the lead record / `clean_data`, which the claims quantify as
dictionaries) or guaranteed to be a lead object by the spec-modelled
Campaign Client search (spec 4.3); elsewhere `pyGetE` models the
`AttributeError` a non-dict receiver raises. -/
def pyGet (d : PyVal) (k : String) : PyVal :=
  match d with
  | PyVal.dict kvs =>
      match dictFind kvs k with
      | some v => v
      | Option.none => PyVal.none
  | _ => PyVal.none

/-- Python `d.get(k)` on an arbitrary value: raises `AttributeError` when
the receiver is not a dict (used on environment-supplied remote bodies,
whose shape the platform does not guarantee). -/
def pyGetE (d : PyVal) (k : String) : Except String PyVal :=
  match d with
  | PyVal.dict kvs =>
      Except.ok
        (match dictFind kvs k with
         | some v => v
         | Option.none => PyVal.none)
  | _ => Except.error "AttributeError: get"

/-- Python `d[k] = v` on a dict: overwrite in place if the key exists,
else append (Python dicts preserve insertion order). -/
def dictSet (kvs : List (String × PyVal)) (k : String) (v : PyVal) :
    List (String × PyVal) :=
  match kvs with
  | [] => [(k, v)]
  | (k2, v2) :: rest =>
      if k2 == k then (k2, v) :: rest else (k2, v2) :: dictSet rest k v

/-- Python `d[k] = v` lifted to `PyVal` (no-op on non-dicts, which the code never
reaches). -/
def pySet (d : PyVal) (k : String) (v : PyVal) : PyVal :=
  match d with
  | PyVal.dict kvs => PyVal.dict (dictSet kvs k v)
  | other => other

/-- Key lookup in a plain string-keyed association list (used for the Python
`secrets` dict, whose values the engine reads by subscript). -/
def lookupStr (kvs : List (String × PyVal)) (k : String) : Option PyVal :=
  dictFind kvs k

/-- Python `s.split(sep)` for a one-character separator, over the character
list of the string (the source only ever splits on `"-"` and `" "`). -/
def splitChar (sep : Char) : List Char → List (List Char)
  | [] => [[]]
  | c :: cs =>
      match splitChar sep cs with
      | [] => [[]]
      | g :: gs => if c == sep then [] :: g :: gs else (c :: g) :: gs

/-- Python `s.split(sep)` returning strings. -/
def pySplit (sep : Char) (s : String) : List String :=
  (splitChar sep s.data).map (fun cs => ⟨cs⟩)

/-- Python `s.lower()` (per-character lowering). -/
def strLower (s : String) : String :=
  ⟨s.data.map Char.toLower⟩

/-- Python `s.strip()` (drop leading and trailing whitespace). -/
def strTrim (s : String) : String :=
  ⟨((s.data.dropWhile Char.isWhitespace).reverse.dropWhile Char.isWhitespace).reverse⟩

/-- Helper for substring containment on character lists. -/
def containsSeq (needle : List Char) : List Char → Bool
  | [] => needle.isEmpty
  | c :: rest => needle.isPrefixOf (c :: rest) || containsSeq needle rest

/-- Python `needle in hay` on strings (substring containment). -/
def strContains (hay needle : String) : Bool :=
  containsSeq needle.toList hay.toList

/-! ## json_sanitize.py -/

mutual

/-- Embeds `sanitize_for_json` (json_sanitize.py): `None` and non-finite numbers
(the bad-float / pandas-NA checks) become `None`; `datetime`/`date`/`Timestamp`
values become their ISO string; dicts recurse on values; lists and tuples
become recursively sanitized lists; every other scalar passes through
unchanged. -/
def sanitize_for_json : PyVal → PyVal
  | PyVal.none => PyVal.none
  | PyVal.nan => PyVal.none
  | PyVal.inf => PyVal.none
  | PyVal.negInf => PyVal.none
  | PyVal.dt iso => PyVal.str iso
  | PyVal.dict kvs => PyVal.dict (sanitizeDict kvs)
  | PyVal.list xs => PyVal.list (sanitizeList xs)
  | PyVal.tuple xs => PyVal.list (sanitizeList xs)
  | PyVal.bool b => PyVal.bool b
  | PyVal.int n => PyVal.int n
  | PyVal.floatFinite v => PyVal.floatFinite v
  | PyVal.str s => PyVal.str s

def sanitizeList : List PyVal → List PyVal
  | [] => []
  | x :: xs => sanitize_for_json x :: sanitizeList xs

def sanitizeDict : List (String × PyVal) → List (String × PyVal)
  | [] => []
  | (k, v) :: kvs => (k, sanitize_for_json v) :: sanitizeDict kvs

end

mutual

theorem sanitize_idem : ∀ v, sanitize_for_json (sanitize_for_json v) = sanitize_for_json v
  | PyVal.none => rfl
  | PyVal.nan => rfl
  | PyVal.inf => rfl
  | PyVal.negInf => rfl
  | PyVal.dt _ => rfl
  | PyVal.bool _ => rfl
  | PyVal.int _ => rfl
  | PyVal.floatFinite _ => rfl
  | PyVal.str _ => rfl
  | PyVal.dict kvs => by
      simp only [sanitize_for_json, sanitizeDict_idem kvs]
  | PyVal.list xs => by
      simp only [sanitize_for_json, sanitizeList_idem xs]
  | PyVal.tuple xs => by
      simp only [sanitize_for_json, sanitizeList_idem xs]

theorem sanitizeList_idem : ∀ xs, sanitizeList (sanitizeList xs) = sanitizeList xs
  | [] => rfl
  | x :: xs => by
      simp only [sanitizeList, sanitize_idem x, sanitizeList_idem xs]

theorem sanitizeDict_idem : ∀ kvs, sanitizeDict (sanitizeDict kvs) = sanitizeDict kvs
  | [] => rfl
  | (k, v) :: kvs => by
      simp only [sanitizeDict, sanitize_idem v, sanitizeDict_idem kvs]

end

/-! ## is_valid_uuid (instantly.py) -/

/-- Embeds `is_valid_uuid` (instantly.py): non-strings are rejected; a string is
accepted iff splitting on `-` yields 5 parts and the length is 36. -/
def is_valid_uuid (val : PyVal) : Bool :=
  match val with
  | PyVal.str s => (pySplit '-' s).length == 5 && s.data.length == 36
  | _ => false

theorem valid_uuid_is_str {v : PyVal} (h : is_valid_uuid v = true) :
    ∃ s, v = PyVal.str s ∧ s.data.length = 36 ∧ (pySplit '-' s).length = 5 := by
  cases v <;> simp [is_valid_uuid] at h
  case str s => exact ⟨s, rfl, h.2, h.1⟩

theorem valid_uuid_truthy {v : PyVal} (h : is_valid_uuid v = true) :
    pyTruthy v = true := by
  obtain ⟨s, rfl, hlen, -⟩ := valid_uuid_is_str h
  simp only [pyTruthy, bne_iff_ne, ne_eq]
  intro hs
  rw [hs] at hlen
  simp at hlen

/-! ## Campaign Directory (instantly.py: module-level campaign cache)

`find_or_create_instantly_campaign` runs its whole body (cache read,
hydration via `_list_all_campaigns`, creation) inside the single module-level
`_campaign_cache_lock`, so concurrent invocations are serialized: an
execution with N concurrent callers is one of the N! sequential orders of
atomic invocations. The embedding models one invocation as an atomic step on
the shared cache state, and a concurrent session as folding steps over a
list of requested names. -/

/-- Environment answering the remote campaign-platform calls that
`find_or_create_instantly_campaign` can make.
`listAll` models `_list_all_campaigns`: `none` is its failure outcome
(non-200 page or exception), `some items` the accumulated campaign dicts.
`createCampaign` models the `POST /api/v2/campaigns` call: `some v` means
the response had status 200 and a truthy id `v` was extracted from its JSON
(`new_c.get("id") or new_c.get("data", \x7b\x7d).get("id")`); `none` covers a
non-200 response, an extraction miss, or an exception. -/
structure CampaignEnv where
  listAll : Option (List PyVal)
  createCampaign : String → Option PyVal

/-- The module-level mutable state: `_campaign_cache` (name → id, insertion
ordered) and `_campaign_cache_loaded`. Only truthy string names can ever
match a queried campaign name (which is always a Python `str`), so the
hydration loop keeps exactly the truthy-string-named entries. -/
structure CampaignState where
  cache : List (String × PyVal)
  loaded : Bool
deriving Repr

/-- State after `reset_campaign_cache()`: empty cache, loaded flag down. -/
def initialCampaignState : CampaignState := ⟨[], false⟩

/-- The hydration loop of `find_or_create_instantly_campaign` /
`_load_campaign_cache`: `for c in campaigns: if name and cid: cache[name] = cid`. -/
def hydrateCache (cache : List (String × PyVal)) (campaigns : List PyVal) :
    List (String × PyVal) :=
  campaigns.foldl
    (fun acc c =>
      let name := pyGet c "name"
      let cid := pyGet c "id"
      if pyTruthy name && pyTruthy cid then
        match name with
        | PyVal.str s => dictSet acc s cid
        | _ => acc
      else acc)
    cache

/-- Step 3 of `find_or_create_instantly_campaign`: create the campaign via
the platform; on success cache the new id before releasing the lock. The
`Nat` counts create-campaign calls issued (1 whether or not it succeeds). -/
def createCampaignStep (env : CampaignEnv) (st : CampaignState) (name : String) :
    CampaignState × Option PyVal × Nat :=
  match env.createCampaign name with
  | some cid => (⟨dictSet st.cache name cid, st.loaded⟩, some cid, 1)
  | Option.none => (st, Option.none, 1)

/-- Embeds `find_or_create_instantly_campaign` (instantly.py), one atomic
invocation under the module lock: (a) cache hit → return it; (b) cache not
hydrated → fetch the full campaign listing, failing closed if the listing
fails, then re-check; (c) still absent → create and cache. Returns the new
state, the result (`None` on any failure), and the number of
create-campaign calls issued. `apiKeyOk` models the truthiness of
`api_key`. -/
def find_or_create_instantly_campaign (env : CampaignEnv) (apiKeyOk : Bool)
    (st : CampaignState) (campaignName : String) :
    CampaignState × Option PyVal × Nat :=
  if !apiKeyOk then (st, Option.none, 0)
  else
    match lookupStr st.cache campaignName with
    | some cid => (st, some cid, 0)
    | Option.none =>
        if !st.loaded then
          match env.listAll with
          | Option.none => (st, Option.none, 0)
          | some campaigns =>
              let cache2 := hydrateCache st.cache campaigns
              let st2 : CampaignState := ⟨cache2, true⟩
              match lookupStr cache2 campaignName with
              | some cid => (st2, some cid, 0)
              | Option.none => createCampaignStep env st2 campaignName
        else createCampaignStep env st campaignName

/-- A sequence of serialized resolve invocations within one session
(the lock admits exactly these interleavings). Returns the final state, the
per-caller results in order, and the total number of create calls. -/
def runResolves (env : CampaignEnv) (apiKeyOk : Bool) :
    CampaignState → List String → CampaignState × List (Option PyVal) × Nat
  | st, [] => (st, [], 0)
  | st, n :: ns =>
      let r1 := find_or_create_instantly_campaign env apiKeyOk st n
      let rest := runResolves env apiKeyOk r1.1 ns
      (rest.1, r1.2.1 :: rest.2.1, r1.2.2 + rest.2.2)

theorem lookup_dictSet_self (kvs : List (String × PyVal)) (k : String) (v : PyVal) :
    lookupStr (dictSet kvs k v) k = some v := by
  induction kvs with
  | nil => simp [dictSet, lookupStr, dictFind]
  | cons kv rest ih =>
      obtain ⟨k2, v2⟩ := kv
      by_cases h : k2 = k
      · simp [dictSet, lookupStr, dictFind, h]
      · simp only [dictSet, beq_iff_eq, h, if_false]
        simpa [lookupStr, dictFind, h] using ih

theorem resolve_cached (env : CampaignEnv) (st : CampaignState) (name : String)
    (v : PyVal) (h : lookupStr st.cache name = some v) :
    find_or_create_instantly_campaign env true st name = (st, some v, 0) := by
  simp [find_or_create_instantly_campaign, h]

theorem runResolves_cached (env : CampaignEnv) (st : CampaignState) (name : String)
    (v : PyVal) (h : lookupStr st.cache name = some v) :
    ∀ N, runResolves env true st (List.replicate N name) =
      (st, List.replicate N (some v), 0) := by
  intro N
  induction N with
  | zero => simp [runResolves]
  | succ n ih =>
      simp only [List.replicate_succ, runResolves, resolve_cached env st name v h, ih]

theorem resolve_initial_cases (env : CampaignEnv) (name : String) (cid : PyVal)
    (hcreate : env.createCampaign name = some cid) :
    (find_or_create_instantly_campaign env true initialCampaignState name =
        (initialCampaignState, Option.none, 0)) ∨
    (∃ st' v c, find_or_create_instantly_campaign env true initialCampaignState name =
        (st', some v, c) ∧ lookupStr st'.cache name = some v ∧ c ≤ 1) := by
  rcases hlist : env.listAll with - | campaigns
  · left
    simp [find_or_create_instantly_campaign, hlist, initialCampaignState, lookupStr, dictFind]
  · right
    rcases hhyd : lookupStr (hydrateCache [] campaigns) name with - | v
    · refine ⟨⟨dictSet (hydrateCache [] campaigns) name cid, true⟩,
        cid, 1, ?_, ?_, le_refl 1⟩
      · simp only [find_or_create_instantly_campaign, initialCampaignState, hlist,
          createCampaignStep, hcreate, lookupStr, dictFind, Bool.not_false, if_true]
        simp only [lookupStr] at hhyd
        simp [hhyd]
      · exact lookup_dictSet_self _ name cid
    · refine ⟨⟨hydrateCache [] campaigns, true⟩, v, 0, ?_, hhyd, ?_⟩
      · simp only [find_or_create_instantly_campaign, initialCampaignState, hlist,
          lookupStr, dictFind, Bool.not_false, if_true]
        simp only [lookupStr] at hhyd
        simp [hhyd]
      · exact Nat.zero_le 1

theorem runResolves_stuck (env : CampaignEnv) (apiKeyOk : Bool) (st : CampaignState)
    (name : String)
    (h : find_or_create_instantly_campaign env apiKeyOk st name = (st, Option.none, 0)) :
    ∀ N, runResolves env apiKeyOk st (List.replicate N name) =
      (st, List.replicate N Option.none, 0) := by
  intro N
  induction N with
  | zero => simp [runResolves]
  | succ n ih => simp only [List.replicate_succ, runResolves, h, ih]

/-- C4 (amended): under the serialization imposed by the module-level lock,
for a never-before-seen campaign name (fresh session state) and a platform
whose create call succeeds, N concurrent `find_or_create_instantly_campaign`
invocations issue at most one create-campaign call in total and all N
callers receive one and the same result (in particular all callers that
succeed receive the same identifier). The as-stated claim fails when the
create call itself fails, see the counterexample. -/
theorem campaign_resolve_at_most_one_create (env : CampaignEnv) (name : String)
    (cid : PyVal) (hcreate : env.createCampaign name = some cid) (N : Nat) :
    (runResolves env true initialCampaignState (List.replicate N name)).2.2 ≤ 1 ∧
    ∃ ov, (runResolves env true initialCampaignState (List.replicate N name)).2.1 =
      List.replicate N ov := by
  cases N with
  | zero => exact ⟨Nat.zero_le 1, Option.none, rfl⟩
  | succ n =>
      rcases resolve_initial_cases env name cid hcreate with h1 | ⟨st', v, c, h1, hcached, hc⟩
      · rw [List.replicate_succ]
        simp only [runResolves, h1, runResolves_stuck env true initialCampaignState name h1 n]
        exact ⟨Nat.zero_le 1, Option.none, rfl⟩
      · rw [List.replicate_succ]
        simp only [runResolves, h1, runResolves_cached env st' name v hcached n]
        exact ⟨by simpa using hc, some v, rfl⟩

theorem campaign_resolve_at_most_one_create_witness :
    (runResolves ⟨some [], fun _ => some (PyVal.str "c-1")⟩ true initialCampaignState
        (List.replicate 3 "Generic - Cold Outreach")).2.2 ≤ 1 ∧
    ∃ ov, (runResolves ⟨some [], fun _ => some (PyVal.str "c-1")⟩ true initialCampaignState
        (List.replicate 3 "Generic - Cold Outreach")).2.1 = List.replicate 3 ov :=
  campaign_resolve_at_most_one_create ⟨some [], fun _ => some (PyVal.str "c-1")⟩
    "Generic - Cold Outreach" (PyVal.str "c-1") rfl 3

/-- C4 counterexample: with a platform whose create-campaign call fails,
two serialized resolve calls for the same never-before-seen name issue TWO
create-campaign calls — the loaded cache records no entry after a failed
create, so every later caller retries the create. This refutes the claim
that at most one create-campaign call is issued in total. -/
theorem campaign_resolve_two_creates_on_failing_create :
    (runResolves ⟨some [], fun _ => Option.none⟩ true initialCampaignState
      ["Generic - Cold Outreach", "Generic - Cold Outreach"]).2.2 = 2 := by decide

/-- C5: `find_or_create_instantly_campaign` fails closed. (a) If the cache
has not been hydrated and the paginated listing fails, it returns no
identifier and issues no create-campaign call, leaving the state unchanged.
(b)/(c) If the create call itself fails (after hydration in this session or
in an earlier one), it returns no identifier rather than raising. -/
theorem campaign_resolve_fail_closed :
    (∀ (env : CampaignEnv) (st : CampaignState) (name : String),
        st.loaded = false → lookupStr st.cache name = Option.none →
        env.listAll = Option.none →
        find_or_create_instantly_campaign env true st name = (st, Option.none, 0)) ∧
    (∀ (env : CampaignEnv) (st : CampaignState) (name : String),
        st.loaded = true → lookupStr st.cache name = Option.none →
        env.createCampaign name = Option.none →
        find_or_create_instantly_campaign env true st name = (st, Option.none, 1)) ∧
    (∀ (env : CampaignEnv) (st : CampaignState) (name : String)
        (campaigns : List PyVal),
        st.loaded = false → lookupStr st.cache name = Option.none →
        env.listAll = some campaigns →
        lookupStr (hydrateCache st.cache campaigns) name = Option.none →
        env.createCampaign name = Option.none →
        find_or_create_instantly_campaign env true st name =
          (⟨hydrateCache st.cache campaigns, true⟩, Option.none, 1)) := by
  refine ⟨?_, ?_, ?_⟩
  · intro env st name hl hc hlist
    simp [find_or_create_instantly_campaign, hl, hc, hlist]
  · intro env st name hl hc hcreate
    simp [find_or_create_instantly_campaign, hl, hc, createCampaignStep, hcreate]
  · intro env st name campaigns hl hc hlist hhyd hcreate
    simp [find_or_create_instantly_campaign, hl, hc, hlist, hhyd, createCampaignStep, hcreate]

theorem campaign_resolve_fail_closed_witness :
    find_or_create_instantly_campaign ⟨Option.none, fun _ => Option.none⟩ true
      initialCampaignState "Generic - Cold Outreach" =
      (initialCampaignState, Option.none, 0) :=
  campaign_resolve_fail_closed.1 ⟨Option.none, fun _ => Option.none⟩
    initialCampaignState "Generic - Cold Outreach" rfl rfl rfl

/-! ## _request_with_retry (instantly.py) -/

/-- An HTTP response as the retry wrapper sees it: status code, the parsed
`Retry-After` header (`none` when the header is absent or does not parse as
a float — `float(retry_after)` is wrapped in try/except), the decoded JSON
body and the raw text. -/
structure HttpResp where
  status : Nat
  retryAfter : Option ℚ
  body : PyVal
  text : String

/-- What one `requests.request(...)` call does: return a response, or raise
(network error, timeout). -/
inductive AttemptOutcome where
  | resp (r : HttpResp)
  | exc (msg : String)

/-- Result of the retry wrapper: the response returned or the exception
raised out of it (`Except.error` = an exception escapes the wrapper), the
list of back-off sleeps performed in order, and the number of
`requests.request` attempts issued. -/
structure RetryResult where
  outcome : Except String HttpResp
  sleeps : List ℚ
  attempts : Nat

/-- The `for attempt in range(retries + 1)` loop of `_request_with_retry`,
with `fuel` the number of loop iterations left. On 429: sleep
`min(Retry-After or backoff * 2 ^ attempt, 30)` and continue (even on the
final iteration). On 5xx before the final iteration: sleep
`min(backoff * 2 ^ attempt, 10)` and continue. On any other response
(including 5xx on the final iteration): return it. On an exception: re-raise
on the final iteration, else sleep `min(backoff * 2 ^ attempt, 10)` and
remember it. When the loop falls through (only possible via 429 `continue`),
raise the remembered exception if any, else
`RuntimeError("request retry loop ended unexpectedly")`. -/
def retryLoop (env : Nat → AttemptOutcome) (retries : Nat) (backoff : ℚ)
    (attempt : Nat) (lastExc : Option String) : Nat → RetryResult
  | 0 =>
      ⟨Except.error
        (match lastExc with
         | some e => e
         | Option.none => "request retry loop ended unexpectedly"), [], 0⟩
  | fuel + 1 =>
      match env attempt with
      | AttemptOutcome.exc msg =>
          if retries ≤ attempt then ⟨Except.error msg, [], 1⟩
          else
            let w := min (backoff * 2 ^ attempt) 10
            let rest := retryLoop env retries backoff (attempt + 1) (some msg) fuel
            ⟨rest.outcome, w :: rest.sleeps, rest.attempts + 1⟩
      | AttemptOutcome.resp r =>
          if r.status == 429 then
            let wait :=
              match r.retryAfter with
              | some q => q
              | Option.none => backoff * 2 ^ attempt
            let rest := retryLoop env retries backoff (attempt + 1) lastExc fuel
            ⟨rest.outcome, min wait 30 :: rest.sleeps, rest.attempts + 1⟩
          else if 500 ≤ r.status && r.status < 600 && attempt < retries then
            let rest := retryLoop env retries backoff (attempt + 1) lastExc fuel
            ⟨rest.outcome, min (backoff * 2 ^ attempt) 10 :: rest.sleeps, rest.attempts + 1⟩
          else ⟨Except.ok r, [], 1⟩

/-- Embeds `_request_with_retry` (instantly.py): run the attempt loop from attempt
0 with `retries + 1` iterations available (defaults: `retries = 4`,
`backoff_s = 1.0`, hence 5 total tries). -/
def _request_with_retry (env : Nat → AttemptOutcome) (retries : Nat) (backoff : ℚ) :
    RetryResult :=
  retryLoop env retries backoff 0 Option.none (retries + 1)

/-- The sleep `_request_with_retry` performs after attempt `i`, if any:
`min(Retry-After or backoff * 2 ^ i, 30)` on 429,
`min(backoff * 2 ^ i, 10)` on a non-final 5xx or exception, nothing
otherwise. -/
def plannedSleep (env : Nat → AttemptOutcome) (retries : Nat) (backoff : ℚ)
    (i : Nat) : Option ℚ :=
  match env i with
  | AttemptOutcome.exc _ =>
      if i < retries then some (min (backoff * 2 ^ i) 10) else Option.none
  | AttemptOutcome.resp r =>
      if r.status == 429 then
        some (min
          (match r.retryAfter with
           | some q => q
           | Option.none => backoff * 2 ^ i) 30)
      else if 500 ≤ r.status && r.status < 600 && i < retries then
        some (min (backoff * 2 ^ i) 10)
      else Option.none

/-- Embeds `get_lead_from_instantly` (instantly.py): reject a falsy api key or lead
id, reject a non-UUID-shaped lead id without any network attempt, otherwise
issue the wrapped GET; a raised exception is converted to a descriptive
error string at this component boundary. The final `Nat` counts the network
attempts issued. -/
def get_lead_from_instantly (env : Nat → AttemptOutcome) (apiKey : String)
    (leadId : PyVal) : (Option PyVal × Option String) × Nat :=
  if apiKey == "" || !pyTruthy leadId then
    ((Option.none, some "Missing api_key or lead_id"), 0)
  else if !is_valid_uuid leadId then
    ((Option.none, some ("Invalid Lead ID format: " ++ pyStr leadId)), 0)
  else
    let r := _request_with_retry env 4 1
    match r.outcome with
    | Except.ok resp =>
        if resp.status == 200 then ((some resp.body, Option.none), r.attempts)
        else
          ((Option.none,
            some ("Instantly get lead failed: " ++ toString resp.status ++ " - "
              ++ resp.text)), r.attempts)
    | Except.error msg =>
        ((Option.none, some ("Instantly get lead exception: " ++ msg)), r.attempts)

theorem retryLoop_attempts_le (env : Nat → AttemptOutcome) (retries : Nat)
    (backoff : ℚ) :
    ∀ fuel attempt lastExc,
      (retryLoop env retries backoff attempt lastExc fuel).attempts ≤ fuel := by
  intro fuel
  induction fuel with
  | zero => intro attempt lastExc; simp [retryLoop]
  | succ f ih =>
      intro attempt lastExc
      simp only [retryLoop]
      cases env attempt with
      | exc msg =>
          by_cases h : retries ≤ attempt
          · simp [h, Nat.le_add_left]
          · simp only [h, if_false]
            exact Nat.succ_le_succ (ih (attempt + 1) (some msg))
      | resp r =>
          by_cases h429 : r.status == 429
          · simp only [h429, if_true]
            exact Nat.succ_le_succ (ih (attempt + 1) lastExc)
          · by_cases h5 : (500 ≤ r.status && r.status < 600 && attempt < retries) = true
            · simp only [h429, if_false, h5, if_true]
              exact Nat.succ_le_succ (ih (attempt + 1) lastExc)
            · simp [h429, h5, Nat.le_add_left]

theorem retryLoop_sleeps_spec (env : Nat → AttemptOutcome) (retries : Nat)
    (backoff : ℚ) :
    ∀ fuel attempt lastExc,
      (retryLoop env retries backoff attempt lastExc fuel).sleeps =
        (List.range' attempt (retryLoop env retries backoff attempt lastExc fuel).attempts).filterMap
          (plannedSleep env retries backoff) := by
  intro fuel
  induction fuel with
  | zero => intro attempt lastExc; simp [retryLoop]
  | succ f ih =>
      intro attempt lastExc
      simp only [retryLoop]
      cases henv : env attempt with
      | exc msg =>
          by_cases h : retries ≤ attempt
          · simp [h, List.range'_succ, plannedSleep, henv, Nat.not_lt.mpr h, List.range']
          · simp only [h, if_false]
            rw [List.range'_succ]
            simp only [List.filterMap_cons, plannedSleep, henv, Nat.not_le.mp h, if_true]
            rw [ih (attempt + 1) (some msg)]
      | resp r =>
          by_cases h429 : r.status == 429
          · simp only [h429, if_true]
            rw [List.range'_succ]
            simp only [List.filterMap_cons, plannedSleep, henv, h429, if_true]
            rw [ih (attempt + 1) lastExc]
          · by_cases h5 : (500 ≤ r.status && r.status < 600 && attempt < retries) = true
            · simp only [h429, Bool.false_eq_true, if_false, h5, if_true]
              rw [List.range'_succ]
              simp only [List.filterMap_cons, plannedSleep, henv, h429, Bool.false_eq_true,
                if_false, h5, if_true]
              rw [ih (attempt + 1) lastExc]
            · simp [h429, h5, List.range'_succ, plannedSleep, henv, List.range']

theorem retryLoop_all429 (env : Nat → AttemptOutcome) (retries : Nat) (backoff : ℚ)
    (h : ∀ i, ∃ r, env i = AttemptOutcome.resp r ∧ r.status = 429) :
    ∀ fuel attempt,
      (retryLoop env retries backoff attempt Option.none fuel).outcome =
        Except.error "request retry loop ended unexpectedly" := by
  intro fuel
  induction fuel with
  | zero => intro attempt; simp [retryLoop]
  | succ f ih =>
      intro attempt
      obtain ⟨r, hr, hs⟩ := h attempt
      simp only [retryLoop, hr, hs]
      simpa using ih (attempt + 1)

theorem retryLoop_allExc (env : Nat → AttemptOutcome) (retries : Nat) (backoff : ℚ)
    (m : Nat → String) (h : ∀ i, env i = AttemptOutcome.exc (m i)) :
    ∀ fuel attempt lastExc, attempt + fuel = retries + 1 → 0 < fuel →
      (retryLoop env retries backoff attempt lastExc fuel).outcome =
        Except.error (m retries) := by
  intro fuel
  induction fuel with
  | zero => intro attempt lastExc _ hpos; exact absurd hpos (by simp)
  | succ f ih =>
      intro attempt lastExc hsum _
      simp only [retryLoop, h attempt]
      by_cases hle : retries ≤ attempt
      · have : attempt = retries := by omega
        simp [hle, this]
      · have hf : 0 < f := by omega
        simp only [hle, if_false]
        exact ih (attempt + 1) (some (m attempt)) (by omega) hf

theorem retryLoop_all5xx (env : Nat → AttemptOutcome) (retries : Nat) (backoff : ℚ)
    (h : ∀ i, ∃ r, env i = AttemptOutcome.resp r ∧ 500 ≤ r.status ∧ r.status < 600) :
    ∀ fuel attempt lastExc, attempt + fuel = retries + 1 → 0 < fuel →
      ∃ r, env retries = AttemptOutcome.resp r ∧
        (retryLoop env retries backoff attempt lastExc fuel).outcome = Except.ok r := by
  intro fuel
  induction fuel with
  | zero => intro attempt lastExc _ hpos; exact absurd hpos (by simp)
  | succ f ih =>
      intro attempt lastExc hsum _
      obtain ⟨r, hr, h5lo, h5hi⟩ := h attempt
      have h429 : (r.status == 429) = false := by
        simp only [beq_eq_false_iff_ne, ne_eq]
        omega
      by_cases hlt : attempt < retries
      · have hf : 0 < f := by omega
        obtain ⟨r2, hr2, hout⟩ := ih (attempt + 1) lastExc (by omega) hf
        refine ⟨r2, hr2, ?_⟩
        simp only [retryLoop, hr, h429, Bool.false_eq_true, if_false]
        have hcond : (500 ≤ r.status && r.status < 600 && attempt < retries) = true := by
          simp [h5lo, h5hi, hlt]
        simp only [hcond, if_true]
        exact hout
      · have heq : attempt = retries := by omega
        subst heq
        refine ⟨r, hr, ?_⟩
        have hcond : (500 ≤ r.status && r.status < 600 && attempt < attempt) = false := by
          simp
        simp [retryLoop, hr, h429, hcond]

/-- C6 (amended): the retry policy of `_request_with_retry` with its default
parameters (retries = 4, base backoff 1s): at most 5 total attempts; the
back-off sleeps are exactly, per attempt `i`: on 429
`min(Retry-After or 2 ^ i, 30)` — the `Retry-After` duration is itself
capped at 30s, contrary to the claim as stated — and on a non-final 5xx or
exception `min(2 ^ i, 10)`; exhaustion by repeated exceptions re-raises the
last exception; exhaustion by repeated 5xx returns the last response;
exhaustion by repeated 429 raises a synthetic
`RuntimeError("request retry loop ended unexpectedly")` instead of
propagating the last response, contrary to the claim as stated; and a raised
exception is converted to a descriptive error string at the
`get_lead_from_instantly` component boundary rather than escaping it. -/
theorem retry_policy_spec :
    (∀ env : Nat → AttemptOutcome, (_request_with_retry env 4 1).attempts ≤ 5) ∧
    (∀ (env : Nat → AttemptOutcome) (retries : Nat) (backoff : ℚ),
      (_request_with_retry env retries backoff).sleeps =
        (List.range (_request_with_retry env retries backoff).attempts).filterMap
          (plannedSleep env retries backoff)) ∧
    (∀ env : Nat → AttemptOutcome,
      (∀ i, ∃ r, env i = AttemptOutcome.resp r ∧ r.status = 429) →
      (_request_with_retry env 4 1).outcome =
        Except.error "request retry loop ended unexpectedly") ∧
    (∀ (env : Nat → AttemptOutcome) (m : Nat → String),
      (∀ i, env i = AttemptOutcome.exc (m i)) →
      (_request_with_retry env 4 1).outcome = Except.error (m 4)) ∧
    (∀ env : Nat → AttemptOutcome,
      (∀ i, ∃ r, env i = AttemptOutcome.resp r ∧ 500 ≤ r.status ∧ r.status < 600) →
      ∃ r, env 4 = AttemptOutcome.resp r ∧
        (_request_with_retry env 4 1).outcome = Except.ok r) ∧
    (∀ (env : Nat → AttemptOutcome) (apiKey : String) (leadId : PyVal) (msg : String),
      (apiKey == "" || !pyTruthy leadId) = false → is_valid_uuid leadId = true →
      (_request_with_retry env 4 1).outcome = Except.error msg →
      (get_lead_from_instantly env apiKey leadId).1 =
        (Option.none, some ("Instantly get lead exception: " ++ msg))) := by
  refine ⟨?_, ?_, ?_, ?_, ?_, ?_⟩
  · intro env
    exact retryLoop_attempts_le env 4 1 5 0 Option.none
  · intro env retries backoff
    rw [List.range_eq_range']
    exact retryLoop_sleeps_spec env retries backoff (retries + 1) 0 Option.none
  · intro env h
    exact retryLoop_all429 env 4 1 h 5 0
  · intro env m h
    exact retryLoop_allExc env 4 1 m h 5 0 Option.none rfl (by simp)
  · intro env h
    exact retryLoop_all5xx env 4 1 h 5 0 Option.none rfl (by simp)
  · intro env apiKey leadId msg hkey huuid hout
    simp [get_lead_from_instantly, hkey, huuid, hout]

theorem retry_policy_spec_witness :
    (_request_with_retry (fun _ => AttemptOutcome.exc "boom") 4 1).outcome =
      Except.error "boom" ∧
    (get_lead_from_instantly (fun _ => AttemptOutcome.exc "boom") "key"
        (PyVal.str "550e8400-e29b-41d4-a716-446655440000")).1 =
      (Option.none, some "Instantly get lead exception: boom") := by
  constructor
  · exact retry_policy_spec.2.2.2.1 (fun _ => AttemptOutcome.exc "boom")
      (fun _ => "boom") (fun _ => rfl)
  · exact retry_policy_spec.2.2.2.2.2 (fun _ => AttemptOutcome.exc "boom") "key"
      (PyVal.str "550e8400-e29b-41d4-a716-446655440000") "boom" (by decide) (by decide)
      (retry_policy_spec.2.2.2.1 (fun _ => AttemptOutcome.exc "boom")
        (fun _ => "boom") (fun _ => rfl))

/-- C6 counterexample: with every attempt answered by a 429 response
carrying `Retry-After: 60`, the wrapper sleeps 30s (not the 60s header
duration) before each retry, and on exhaustion raises the synthetic
`RuntimeError` rather than propagating the last response or a request
exception. -/
theorem retry_retry_after_capped_counterexample :
    (_request_with_retry (fun _ => AttemptOutcome.resp ⟨429, some 60, PyVal.none, ""⟩)
        4 1).sleeps = [30, 30, 30, 30, 30] ∧
    (_request_with_retry (fun _ => AttemptOutcome.resp ⟨429, some 60, PyVal.none, ""⟩)
        4 1).outcome = Except.error "request retry loop ended unexpectedly" := by
  constructor
  · rfl
  · rfl

/-! ## millionverifier.py -/

/-- Canonical statuses from MillionVerifier output (`VALID_STATUSES`). -/
def VALID_STATUSES : List String := ["ok", "invalid", "catch_all", "unknown", "disposable"]

/-- Statuses considered safe to sync (`GOOD_STATUSES`). -/
def GOOD_STATUSES : List String := ["ok"]

/-- Embeds `_normalize_status` (millionverifier.py): falsy or non-string input maps
to `"unknown"`; otherwise strip and lower, and keep the result only when it
is one of the canonical statuses, else `"unknown"` (fail-safe). -/
def _normalize_status (raw : PyVal) : String :=
  match raw with
  | PyVal.str s =>
      if s == "" then "unknown"
      else
        let cleaned := strLower (strTrim s)
        if VALID_STATUSES.contains cleaned then cleaned else "unknown"
  | _ => "unknown"

/-- Embeds `verify_single_email` (millionverifier.py). The environment `env` is the
remote verification API: `env e = some v` models an HTTP 200 response with
`data.get("result") = v`, `env e = none` a non-200 response or a raised
network error (both mapped to `"unknown"`, fail-safe, without raising).
Returns the status and the list of emails for which a remote verification
call was actually issued (the argument email, stripped and lowered, exactly
when both the api key and the email are truthy). -/
def verify_single_email (env : String → Option PyVal) (apiKey email : String) :
    String × List String :=
  if apiKey == "" || email == "" then ("unknown", [])
  else
    let q := strLower (strTrim email)
    match env q with
    | some result => (_normalize_status result, [q])
    | Option.none => ("unknown", [q])

/-- The needs-verification path of `verify_pending_leads`
(millionverifier.py): with no usable email the record becomes
`("unknown", True)` without a remote call, else `verify_single_email` is
invoked (on the stripped email, as at the submission site) and its result
normalized once more. -/
def verifyRecordNeedsApi (env : String → Option PyVal) (apiKey : String)
    (rec : PyVal) : (PyVal × String × Bool) × List String :=
  match pyGet rec "key_contact_email" with
  | PyVal.str e =>
      if e != "" && strTrim e != "" then
        let r := verify_single_email env apiKey (strTrim e)
        ((rec, _normalize_status (PyVal.str r.1), true), r.2)
      else ((rec, "unknown", true), [])
  | _ => ((rec, "unknown", true), [])

/-- One record's resolution inside `verify_pending_leads`
(millionverifier.py): a record whose `verification_status` is a truthy
string that is still truthy after `strip()` is trusted — its stored status
is normalized and returned with `was_api_call = False` and no remote call;
otherwise the record takes the needs-verification path. -/
def verifyRecordStep (env : String → Option PyVal) (apiKey : String) (rec : PyVal) :
    (PyVal × String × Bool) × List String :=
  let existing := pyGet rec "verification_status"
  match existing with
  | PyVal.str s =>
      if s != "" && strTrim s != "" then
        ((rec, _normalize_status existing, false), [])
      else verifyRecordNeedsApi env apiKey rec
  | _ => verifyRecordNeedsApi env apiKey rec

/-- Embeds `verify_pending_leads` (millionverifier.py): each record resolves
independently (results are placed back at the record's index, so the output
order is the input order; the worker pool only affects completion order,
which the result list does not expose). The second component is the
accumulated list of emails for which a remote verification call was issued. -/
def verify_pending_leads (env : String → Option PyVal) (apiKey : String)
    (records : List PyVal) : List (PyVal × String × Bool) × List String :=
  (records.map (fun r => (verifyRecordStep env apiKey r).1),
   records.flatMap (fun r => (verifyRecordStep env apiKey r).2))

/-- C8 (amended): a record whose pre-existing `verification_status` is a
string that is non-empty AFTER stripping whitespace is trusted: its entry in
the batch result is the normalized stored status marked
`was_api_call = False`, and it contributes no remote verification call; a
batch's remote-call trace is exactly the per-record traces concatenated.
(The claim as stated — any non-empty status string — fails for a
whitespace-only status, see the counterexample.) -/
theorem verification_trust_nonblank_status (env : String → Option PyVal)
    (apiKey : String) (rec : PyVal) (s : String)
    (hs : pyGet rec "verification_status" = PyVal.str s)
    (hnb : strTrim s ≠ "") :
    verifyRecordStep env apiKey rec =
      ((rec, _normalize_status (PyVal.str s), false), []) ∧
    (∀ records : List PyVal,
      (verify_pending_leads env apiKey records).1 =
        records.map (fun r => (verifyRecordStep env apiKey r).1) ∧
      (verify_pending_leads env apiKey records).2 =
        records.flatMap (fun r => (verifyRecordStep env apiKey r).2)) := by
  have hs0 : s ≠ "" := by
    intro h
    exact hnb (by rw [h]; rfl)
  refine ⟨?_, fun records => ⟨rfl, rfl⟩⟩
  simp only [verifyRecordStep, hs]
  have hcond : (s != "" && strTrim s != "") = true := by
    simp [hs0, hnb]
  simp [hcond]

theorem verification_trust_nonblank_status_witness :
    verifyRecordStep (fun _ => Option.none) "k"
        (PyVal.dict [("verification_status", PyVal.str "OK ")]) =
      ((PyVal.dict [("verification_status", PyVal.str "OK ")], "ok", false), []) := by
  have h := (verification_trust_nonblank_status (fun _ => Option.none) "k"
    (PyVal.dict [("verification_status", PyVal.str "OK ")]) "OK " rfl (by decide)).1
  exact h

/-- C8 counterexample: a record whose `verification_status` is the non-empty
string `" "` (whitespace only) is NOT trusted — a remote verification call
for its email is issued (and the result tuple is marked as coming from the
API), refuting the claim for non-empty-but-blank stored statuses. -/
theorem verification_blank_status_counterexample :
    (verify_pending_leads (fun _ => some (PyVal.str "ok")) "key"
        [PyVal.dict [("verification_status", PyVal.str " "),
                     ("key_contact_email", PyVal.str "a@b.com")]]).2 = ["a@b.com"] ∧
    ((verify_pending_leads (fun _ => some (PyVal.str "ok")) "key"
        [PyVal.dict [("verification_status", PyVal.str " "),
                     ("key_contact_email", PyVal.str "a@b.com")]]).1.map
      (fun t => (t.2.1, t.2.2))) = [("ok", true)] := by
  constructor
  · rfl
  · rfl

/-! ## Reconciler (sync_manager.py: `_process_single_lead`)

Every remote operation the Reconciler can perform is answered by a `RecEnv`
environment, and the embedding additionally returns the ordered trace of
remote operations issued, so that "no create/patch call" properties are
statable. -/

/-- One remote operation issued by the Reconciler (the campaign resolution
is the Campaign Directory invocation of 4.2; the others are Campaign Client
calls). -/
inductive RemoteCall where
  | resolveCampaign (name : String)
  | getLead (leadId : String)
  | searchEmail (email : String) (campaignId : Option String)
  | patchLead (leadId : String)
  | deleteLead (leadId : String)
  | exportLeads (campaignId : String)
deriving Repr, DecidableEq

/-- Environment answering the Reconciler's remote operations. Each field
models the corresponding client function at its `(success, error)`-shaped
boundary (the client functions catch their own exceptions). -/
structure RecEnv where
  /-- `find_or_create_instantly_campaign`: campaign id, or `None` on failure. -/
  findOrCreateCampaign : String → Option String
  /-- `get_lead_from_instantly`: `(lead_json_or_None, error_or_None)`. -/
  getLead : String → Option PyVal × Option String
  /-- Modelled from the spec: `search_lead_by_email` is imported by
  sync_manager.py from the campaign-client module but its definition is not
  among the sources. Per spec 4.3 it is the Campaign Client operation
  `searchLeadByEmail(email, campaignId?)`, returning a
  `(found_lead_or_none, error)`-shaped result without raising; the found
  lead is a campaign-lead object carrying its `id`. -/
  searchLeadByEmail : String → Option String → PyVal × Option String
  /-- `update_lead_in_instantly` (PATCH): `(success, error_or_None)`. -/
  updateLead : String → PyVal → Bool × Option String
  /-- `delete_lead_from_instantly`: `(success, error_or_None)`. -/
  deleteLead : String → Bool × Option String
  /-- `export_leads_to_instantly` (bulk add of one lead):
  `(created_count, created_leads, error_or_None)` (the raw-response
  component, unused by the Reconciler, is omitted). -/
  exportLeads : String → PyVal → Nat × List PyVal × Option String

/-- Per-lead outcome dict of `_process_single_lead`: either the final
Success dict (`id`, `op`, `new_instantly_id`, `campaign_id`) or one of the
early Failed dicts (`id`, `error`). -/
inductive LeadOutcome where
  | ok (airtableId : PyVal) (op : String) (newInstantlyId : PyVal)
      (campaignId : Option String)
  | failed (airtableId : PyVal) (error : String)
deriving Repr

/-- The datastore id component of an outcome (present on every path). -/
def LeadOutcome.airtableId : LeadOutcome → PyVal
  | LeadOutcome.ok aid _ _ _ => aid
  | LeadOutcome.failed aid _ => aid

/-- Intermediate result of a Reconciler scenario branch: an early Failed
return, or fall-through to the single final Success return with the
(`operation`, `new_instantly_id`) pair as mutated by the branch. -/
inductive ScenarioRes where
  | done (op : String) (newInstantlyId : PyVal)
  | failed (error : String)
deriving Repr

/-- Python `str(err)` for an optional error string (`str(None) = "None"`). -/
def optErrStr : Option String → String
  | some s => s
  | Option.none => "None"

/-- Python `v in (None, "", [], \x7b\x7d)` (the empty-value filter used on
custom-variable payloads). -/
def isEmptyish : PyVal → Bool
  | PyVal.none => true
  | PyVal.str s => s == ""
  | PyVal.list xs => xs.isEmpty
  | PyVal.dict kvs => kvs.isEmpty
  | _ => false

/-- Embeds `_build_patch_payload` (sync_manager.py): split the contact name into
first/last, collect the non-empty custom variables, and sanitize the whole
PATCH payload. -/
def _build_patch_payload (clean_data : PyVal) : PyVal :=
  let raw_name := pyGet clean_data "key_contact_name"
  let name_parts := pySplit ' ' (pyStr raw_name)
  let first_name := match name_parts with | [] => "" | p :: _ => p
  let last_name :=
    if name_parts.length > 1 then " ".intercalate (name_parts.drop 1) else ""
  let custom_vars0 : List (String × PyVal) :=
    [("postalCode", pyGet clean_data "postal_code"),
     ("jobTitle", pyGet clean_data "key_contact_position"),
     ("address", pyGet clean_data "postal_address"),
     ("City", pyGet clean_data "city"),
     ("state", pyGet clean_data "state"),
     ("competitor1", pyGet clean_data "competitor1"),
     ("competitor2", pyGet clean_data "competitor2"),
     ("competitor3", pyGet clean_data "competitor3")]
  let custom_vars := custom_vars0.filter (fun kv => !isEmptyish kv.2)
  sanitize_for_json (PyVal.dict
    [("email", pyGet clean_data "key_contact_email"),
     ("first_name", PyVal.str first_name),
     ("last_name", PyVal.str last_name),
     ("company_name", pyGet clean_data "company_name"),
     ("website", pyGet clean_data "website"),
     ("phone", pyGet clean_data "generic_phone"),
     ("custom_variables",
      if custom_vars.isEmpty then PyVal.none else PyVal.dict custom_vars)])

/-- Computes `clean_data = sanitize_for_json(lead or \x7b\x7d)` before the email
normalization writes back into it. -/
def cleanRaw (lead : PyVal) : PyVal :=
  sanitize_for_json (if pyTruthy lead then lead else PyVal.dict [])

/-- The email normalization of `_process_single_lead`: a non-string or
blank-after-strip `key_contact_email` becomes `None`, otherwise
`email.strip().lower()`. -/
def normEmail (lead : PyVal) : Option String :=
  match pyGet (cleanRaw lead) "key_contact_email" with
  | PyVal.str s =>
      if strTrim s == "" then Option.none else some (strLower (strTrim s))
  | _ => Option.none

/-- Computes `clean_data` after the normalized email has been written back
(`clean_data["key_contact_email"] = email`). -/
def cleanData (lead : PyVal) : PyVal :=
  pySet (cleanRaw lead) "key_contact_email"
    (match normEmail lead with
     | some e => PyVal.str e
     | Option.none => PyVal.none)

/-- Computes `has_email_mark`: `str(email_avail) == "1" or email_avail is True`. -/
def hasEmailMarkOf (lead : PyVal) : Bool :=
  let emailAvail := pyGet (cleanData lead) "email_available"
  pyStr emailAvail == "1" ||
    (match emailAvail with | PyVal.bool true => true | _ => false)

/-- The industry value after defaulting and list unwrapping: falsy →
`"Generic"`, a (necessarily non-empty, since truthy) list → its head. -/
def industryOf (lead : PyVal) : PyVal :=
  let industry0 := pyGet (cleanData lead) "industry"
  let industry1 := if pyTruthy industry0 then industry0 else PyVal.str "Generic"
  match industry1 with
  | PyVal.list (x :: _) => x
  | other => other

/-- Computes `camp_name`: the campaign name derived from the industry. -/
def campaignNameOf (lead : PyVal) : String :=
  pyStr (industryOf lead) ++ " - Cold Outreach"

/-- Computes `(inst_lead.get("email") or "").lower()`: total except when the email
field is a truthy non-string, where Python raises `AttributeError` (no
`.lower` on the value). -/
def pyOrEmptyLower (v : PyVal) : Except String String :=
  if pyTruthy v then
    match v with
    | PyVal.str s => Except.ok (strLower s)
    | _ => Except.error "AttributeError: lower"
  else Except.ok ""

/-- Computes `inst_email`, that is
`(inst_lead.get("email") or "").lower() if inst_lead else None`:
`None` when the fetch returned nothing or a falsy body. On a truthy body
both raise sites are modelled: `.get` raises `AttributeError` on a
non-dict body, and `.lower()` raises on a truthy non-string email field. -/
def instEmailExc (instLead : Option PyVal) : Except String (Option String) :=
  match instLead with
  | some d =>
      if pyTruthy d then
        match pyGetE d "email" with
        | Except.error m => Except.error m
        | Except.ok v => (pyOrEmptyLower v).map some
      else Except.ok Option.none
  | Option.none => Except.ok Option.none

/-- Scenario A1 of `_process_single_lead` (valid pointer, email expected),
after `inst_email` has been computed: A1a update-or-fallback when the
remote lead exists with a matching email, A1b link-or-recreate otherwise.
The `created[0].get("id")` accesses go through `pyGetE`: a non-dict created
item would raise `AttributeError` in the source. Search results, by
contrast, are campaign-lead objects per the spec-modelled Campaign Client
(spec 4.3), so `.get` on a truthy search hit cannot raise. -/
def scenarioA1core (env : RecEnv) (lid : String) (e : String)
    (instLead : Option PyVal) (instEmail : Option String) (clean : PyVal)
    (cId : String) : Except String (ScenarioRes × List RemoteCall) :=
  let leadExists := instLead.isSome
  let emailMatches :=
    match instEmail with
    | some s => s != "" && s == e
    | Option.none => false
  if leadExists && emailMatches then
    -- A1a: lead exists and email matches -> PATCH update
    let patch := _build_patch_payload clean
    let u := env.updateLead lid patch
    if u.1 then
      Except.ok (ScenarioRes.done "Update" (PyVal.str lid),
        [RemoteCall.getLead lid, RemoteCall.patchLead lid])
    else
      -- PATCH failed - try delete + create as fallback
      let ex := env.exportLeads cId clean
      let baseTrace := [RemoteCall.getLead lid, RemoteCall.patchLead lid,
        RemoteCall.deleteLead lid, RemoteCall.exportLeads cId]
      if ex.1 > 0 && !ex.2.1.isEmpty then
        match pyGetE (ex.2.1.headD PyVal.none) "id" with
        | Except.error m => Except.error m
        | Except.ok v => Except.ok (ScenarioRes.done "Create" v, baseTrace)
      else
        let srch := env.searchLeadByEmail e (some cId)
        if pyTruthy srch.1 then
          Except.ok (ScenarioRes.done "Link" (pyGet srch.1 "id"),
            baseTrace ++ [RemoteCall.searchEmail e (some cId)])
        else
          Except.ok (ScenarioRes.failed ("Update failed (" ++ optErrStr u.2 ++
            "), Create also failed: " ++ optErrStr ex.2.2),
            baseTrace ++ [RemoteCall.searchEmail e (some cId)])
  else
    -- A1b: email changed OR lead vanished; check the new email first
    let srch := env.searchLeadByEmail e (some cId)
    if pyTruthy srch.1 then
      let newId := pyGet srch.1 "id"
      if leadExists && !pyEq newId (PyVal.str lid) then
        Except.ok (ScenarioRes.done "Link" newId,
          [RemoteCall.getLead lid, RemoteCall.searchEmail e (some cId),
           RemoteCall.deleteLead lid])
      else
        Except.ok (ScenarioRes.done "Link" newId,
          [RemoteCall.getLead lid, RemoteCall.searchEmail e (some cId)])
    else
      let delTrace := if leadExists then [RemoteCall.deleteLead lid] else []
      let ex := env.exportLeads cId clean
      let baseTrace := [RemoteCall.getLead lid, RemoteCall.searchEmail e (some cId)]
        ++ delTrace ++ [RemoteCall.exportLeads cId]
      if ex.1 > 0 && !ex.2.1.isEmpty then
        match pyGetE (ex.2.1.headD PyVal.none) "id" with
        | Except.error m => Except.error m
        | Except.ok v => Except.ok (ScenarioRes.done "Create" v, baseTrace)
      else
        let srch2 := env.searchLeadByEmail e (some cId)
        if pyTruthy srch2.1 then
          Except.ok (ScenarioRes.done "Link" (pyGet srch2.1 "id"),
            baseTrace ++ [RemoteCall.searchEmail e (some cId)])
        else
          Except.ok
            (ScenarioRes.failed ("Email changed, create failed: " ++ optErrStr ex.2.2),
             baseTrace ++ [RemoteCall.searchEmail e (some cId)])

/-- Scenario A of `_process_single_lead` (valid `instantly_lead_id`):
A1 when the email mark is set and an email is present, A2 (remote delete,
"not found" treated as success) otherwise. The `Except.error` case is the
`AttributeError` a truthy non-string remote email field would raise. -/
def scenarioA (env : RecEnv) (lid : String) (hasEmailMark : Bool)
    (email : Option String) (clean : PyVal) (cId : String) :
    Except String (ScenarioRes × List RemoteCall) :=
  match email, hasEmailMark with
  | some e, true =>
      let instLead := (env.getLead lid).1
      match instEmailExc instLead with
      | Except.error m => Except.error m
      | Except.ok instEmail =>
          scenarioA1core env lid e instLead instEmail clean cId
  | _, _ =>
      -- A2: no email -> DELETE from Instantly
      let d := env.deleteLead lid
      Except.ok
        (if !d.1 && !strContains (strLower (optErrStr d.2)) "not found" then
          (ScenarioRes.failed ("Delete Failed: " ++ optErrStr d.2),
           [RemoteCall.deleteLead lid])
        else (ScenarioRes.done "Delete" PyVal.none, [RemoteCall.deleteLead lid]))

/-- Scenario B of `_process_single_lead` (no usable `instantly_lead_id`):
B1 search-then-link-or-create when the email mark is set and an email is
present, B2 skip (clearing a truthy garbage pointer) otherwise. The
`created[0].get("id")` access goes through `pyGetE` (a non-dict created
item raises `AttributeError` in the source); search results are lead
objects per the spec-modelled Campaign Client (spec 4.3), so `.get` on a
truthy search hit cannot raise. -/
def scenarioB (env : RecEnv) (leadIdInstantly : PyVal) (hasEmailMark : Bool)
    (email : Option String) (clean : PyVal) (cId : String) :
    Except String (ScenarioRes × List RemoteCall) :=
  match email, hasEmailMark with
  | some e, true =>
      let srch := env.searchLeadByEmail e (some cId)
      if pyTruthy srch.1 then
        -- B1a: email already exists in Instantly -> Link to it
        Except.ok (ScenarioRes.done "Link" (pyGet srch.1 "id"),
          [RemoteCall.searchEmail e (some cId)])
      else
        -- B1b: email does not exist -> Create new lead
        let ex := env.exportLeads cId clean
        let baseTrace := [RemoteCall.searchEmail e (some cId), RemoteCall.exportLeads cId]
        if ex.1 > 0 && !ex.2.1.isEmpty then
          match pyGetE (ex.2.1.headD PyVal.none) "id" with
          | Except.error m => Except.error m
          | Except.ok v => Except.ok (ScenarioRes.done "Create" v, baseTrace)
        else if ex.2.2.isSome then
          let srch2 := env.searchLeadByEmail e (some cId)
          if pyTruthy srch2.1 then
            Except.ok (ScenarioRes.done "Link" (pyGet srch2.1 "id"),
              baseTrace ++ [RemoteCall.searchEmail e (some cId)])
          else
            Except.ok (ScenarioRes.failed ("Create Failed: " ++ optErrStr ex.2.2),
              baseTrace ++ [RemoteCall.searchEmail e (some cId)])
        else
          -- cnt == 0 but no error: lead was skipped (already exists)
          let srch2 := env.searchLeadByEmail e (some cId)
          if pyTruthy srch2.1 then
            Except.ok (ScenarioRes.done "Link" (pyGet srch2.1 "id"),
              baseTrace ++ [RemoteCall.searchEmail e (some cId)])
          else
            Except.ok (ScenarioRes.done "Skip" PyVal.none,
              baseTrace ++ [RemoteCall.searchEmail e (some cId)])
  | _, _ =>
      -- B2: no email -> nothing to sync; clear a truthy garbage pointer
      Except.ok (ScenarioRes.done "Skip"
        (if pyTruthy leadIdInstantly then PyVal.none else leadIdInstantly), [])

/-- Embeds `_process_single_lead` (sync_manager.py). `Except.error` models an
exception escaping the function: the `KeyError` of
`secrets["instantly_key"]` on a secrets dict without that key, or the
`AttributeError` on a truthy non-string remote email field. Campaign
resolution happens first on every path; its failure short-circuits to a
Failed outcome before any scenario branch runs. -/
def _process_single_lead (env : RecEnv) (lead : PyVal)
    (secrets : List (String × PyVal)) :
    Except String (LeadOutcome × List RemoteCall) :=
  match lookupStr secrets "instantly_key" with
  | Option.none => Except.error "KeyError: instantly_key"
  | some _ =>
      let clean := cleanData lead
      let leadIdAirtable := pyGet clean "id"
      let leadIdInstantly := pyGet clean "instantly_lead_id"
      let hasEmailMark := hasEmailMarkOf lead
      let email := normEmail lead
      let campName := campaignNameOf lead
      match env.findOrCreateCampaign campName with
      | Option.none =>
          Except.ok (LeadOutcome.failed leadIdAirtable
            ("Create Failed: No campaign available for \x27" ++ campName ++
             "\x27 (check Instantly API key / rate limit / permissions)"),
            [RemoteCall.resolveCampaign campName])
      | some cId =>
          let scenE :=
            if pyTruthy leadIdInstantly && is_valid_uuid leadIdInstantly then
              match leadIdInstantly with
              | PyVal.str lid => scenarioA env lid hasEmailMark email clean cId
              | _ =>
                  -- unreachable: is_valid_uuid accepts only strings
                  scenarioB env leadIdInstantly hasEmailMark email clean cId
            else scenarioB env leadIdInstantly hasEmailMark email clean cId
          match scenE with
          | Except.error m => Except.error m
          | Except.ok (res, trace) =>
              match res with
              | ScenarioRes.failed err =>
                  Except.ok (LeadOutcome.failed leadIdAirtable err,
                    RemoteCall.resolveCampaign campName :: trace)
              | ScenarioRes.done op newId =>
                  Except.ok (LeadOutcome.ok leadIdAirtable op newId
                    (if op == "Create" || op == "Update" || op == "Link"
                     then some cId else Option.none),
                    RemoteCall.resolveCampaign campName :: trace)

/-- A well-formed email field value: if truthy it is a string (so
`.lower()` does not raise). -/
def emailFieldOk (v : PyVal) : Prop := pyTruthy v = true → ∃ s, v = PyVal.str s

/-- A well-formed remote lead body as fetched by `get_lead_from_instantly`:
when truthy it is a dict (so `.get` does not raise) whose email field is a
string or falsy (so `.lower()` does not raise). -/
def leadBodyOk (d : PyVal) : Prop :=
  pyTruthy d = true → (∃ kvs, d = PyVal.dict kvs) ∧ emailFieldOk (pyGet d "email")

/-- A well-formed bulk-add environment: whenever a created lead is reported
(`cnt > 0 and created`), the first created item is a dict (so
`created[0].get("id")` does not raise). -/
def createdHeadOk (env : RecEnv) : Prop :=
  ∀ cid payload,
    ((env.exportLeads cid payload).1 > 0 &&
      !(env.exportLeads cid payload).2.1.isEmpty) = true →
    ∃ kvs, (env.exportLeads cid payload).2.1.headD PyVal.none = PyVal.dict kvs

theorem pyOrEmptyLower_ok {v : PyVal} (h : emailFieldOk v) :
    ∃ s, pyOrEmptyLower v = Except.ok s := by
  by_cases ht : pyTruthy v = true
  · obtain ⟨s, rfl⟩ := h ht
    exact ⟨strLower s, by simp [pyOrEmptyLower, ht]⟩
  · have ht' : pyTruthy v = false := by simpa using ht
    exact ⟨"", by simp [pyOrEmptyLower, ht']⟩

theorem pyGetE_dict_eq (kvs : List (String × PyVal)) (k : String) :
    pyGetE (PyVal.dict kvs) k = Except.ok (pyGet (PyVal.dict kvs) k) := rfl

theorem instEmailExc_ok (instLead : Option PyVal)
    (h : ∀ d, instLead = some d → leadBodyOk d) :
    ∃ r, instEmailExc instLead = Except.ok r := by
  cases instLead with
  | none => exact ⟨Option.none, rfl⟩
  | some d =>
      by_cases ht : pyTruthy d = true
      · obtain ⟨⟨kvs, hd⟩, hef⟩ := h d rfl ht
        obtain ⟨s, hs⟩ := pyOrEmptyLower_ok hef
        subst hd
        exact ⟨some s, by simp [instEmailExc, ht, pyGetE_dict_eq, hs, Except.map]⟩
      · have ht' : pyTruthy d = false := by simpa using ht
        exact ⟨Option.none, by simp [instEmailExc, ht']⟩

theorem scenarioA1core_ok (env : RecEnv) (lid : String) (e : String)
    (instLead : Option PyVal) (instEmail : Option String) (clean : PyVal)
    (cId : String) (hcreated : createdHeadOk env) :
    ∃ r, scenarioA1core env lid e instLead instEmail clean cId = Except.ok r := by
  simp only [scenarioA1core]
  split
  · -- A1a: lead exists and email matches
    split
    · exact ⟨_, rfl⟩
    · split
      next hcnt =>
        obtain ⟨kvs, hk⟩ := hcreated cId clean hcnt
        rw [hk, pyGetE_dict_eq]
        exact ⟨_, rfl⟩
      next =>
        split
        · exact ⟨_, rfl⟩
        · exact ⟨_, rfl⟩
  · -- A1b: email changed or lead vanished
    split
    · split
      · exact ⟨_, rfl⟩
      · exact ⟨_, rfl⟩
    · split
      next hcnt =>
        obtain ⟨kvs, hk⟩ := hcreated cId clean hcnt
        rw [hk, pyGetE_dict_eq]
        exact ⟨_, rfl⟩
      next =>
        split
        · exact ⟨_, rfl⟩
        · exact ⟨_, rfl⟩

theorem scenarioA_ok (env : RecEnv) (lid : String) (hasEmailMark : Bool)
    (email : Option String) (clean : PyVal) (cId : String)
    (h : ∀ d, (env.getLead lid).1 = some d → leadBodyOk d)
    (hcreated : createdHeadOk env) :
    ∃ r, scenarioA env lid hasEmailMark email clean cId = Except.ok r := by
  cases email with
  | none => exact ⟨_, rfl⟩
  | some e =>
      cases hasEmailMark with
      | false => exact ⟨_, rfl⟩
      | true =>
          obtain ⟨r0, hr0⟩ := instEmailExc_ok (env.getLead lid).1 h
          obtain ⟨r1, hr1⟩ :=
            scenarioA1core_ok env lid e (env.getLead lid).1 r0 clean cId hcreated
          refine ⟨r1, ?_⟩
          simp [scenarioA, hr0, hr1]

theorem scenarioB_ok (env : RecEnv) (leadIdInstantly : PyVal)
    (hasEmailMark : Bool) (email : Option String) (clean : PyVal) (cId : String)
    (hcreated : createdHeadOk env) :
    ∃ r, scenarioB env leadIdInstantly hasEmailMark email clean cId =
      Except.ok r := by
  cases email with
  | none => exact ⟨_, rfl⟩
  | some e =>
      cases hasEmailMark with
      | false => exact ⟨_, rfl⟩
      | true =>
          simp only [scenarioB]
          split
          · exact ⟨_, rfl⟩
          · split
            next hcnt =>
              obtain ⟨kvs, hk⟩ := hcreated cId clean hcnt
              rw [hk, pyGetE_dict_eq]
              exact ⟨_, rfl⟩
            next =>
              split <;> try split
              all_goals exact ⟨_, rfl⟩

/-- An all-failure environment used for concrete instances: campaign
resolution fails, every fetch/search finds nothing, every mutation fails. -/
def trivialEnv : RecEnv :=
  ⟨fun _ => Option.none,
   fun _ => (Option.none, Option.none),
   fun _ _ => (PyVal.none, Option.none),
   fun _ _ => (false, Option.none),
   fun _ => (false, Option.none),
   fun _ _ => (0, [], Option.none)⟩

/-- C3 (amended): given an input lead that is a dictionary (or falsy, which
the source replaces by `\x7b\x7d`) — as the claim itself quantifies — a
secrets dict that does contain `instantly_key`, remote get-lead bodies that
are dicts with string-or-falsy `email` fields when truthy, and bulk-add
created items that are dicts, `_process_single_lead` never raises: every
execution path returns a structured outcome (Success with operation, new
campaign-lead id and campaign id, or Failed with an error string) carrying
the lead's datastore id. The as-stated claim — for EVERY secrets
dictionary — fails on a secrets dict without `instantly_key`, see the
counterexample; and without the remote-shape conditions the source raises
`AttributeError` at `inst_lead.get("email")` or `created[0].get("id")`
(modelled by the `Except.error` paths of the embedding). -/
theorem process_single_lead_total_outcome
    (env : RecEnv) (lead : PyVal) (secrets : List (String × PyVal)) (k : PyVal)
    (_hlead : pyTruthy lead = false ∨ ∃ kvs, lead = PyVal.dict kvs)
    (hsec : lookupStr secrets "instantly_key" = some k)
    (hget : ∀ lid d, (env.getLead lid).1 = some d → leadBodyOk d)
    (hcreated : createdHeadOk env) :
    ∃ out trace, _process_single_lead env lead secrets = Except.ok (out, trace) ∧
      out.airtableId = pyGet (cleanData lead) "id" := by
  -- `_hlead` is the claim's own "input lead dictionary" quantification; it is
  -- what licenses the total modelling of the `.get` calls on `clean_data`
  -- (a truthy non-dict lead would already raise at `clean_data.get("id")`).
  rcases hc : env.findOrCreateCampaign (campaignNameOf lead) with - | cId
  · refine ⟨LeadOutcome.failed (pyGet (cleanData lead) "id")
      ("Create Failed: No campaign available for \x27" ++ campaignNameOf lead ++
       "\x27 (check Instantly API key / rate limit / permissions)"),
      [RemoteCall.resolveCampaign (campaignNameOf lead)], ?_, rfl⟩
    simp [_process_single_lead, hsec, hc]
  · by_cases hval : (pyTruthy (pyGet (cleanData lead) "instantly_lead_id") &&
        is_valid_uuid (pyGet (cleanData lead) "instantly_lead_id")) = true
    · obtain ⟨lid, hlid⟩ : ∃ lid,
          pyGet (cleanData lead) "instantly_lead_id" = PyVal.str lid := by
        have h2 := ((Bool.and_eq_true _ _).mp hval).2
        obtain ⟨s, hs, -, -⟩ := valid_uuid_is_str h2
        exact ⟨s, hs⟩
      rw [hlid] at hval
      obtain ⟨⟨res, trace⟩, hA⟩ := scenarioA_ok env lid (hasEmailMarkOf lead)
        (normEmail lead) (cleanData lead) cId (hget lid) hcreated
      cases res with
      | done op newId =>
          refine ⟨LeadOutcome.ok (pyGet (cleanData lead) "id") op newId
            (if op == "Create" || op == "Update" || op == "Link"
             then some cId else Option.none),
            RemoteCall.resolveCampaign (campaignNameOf lead) :: trace, ?_, rfl⟩
          simp only [_process_single_lead, hsec, hc, hval, if_true, hlid, hA]
      | failed err =>
          refine ⟨LeadOutcome.failed (pyGet (cleanData lead) "id") err,
            RemoteCall.resolveCampaign (campaignNameOf lead) :: trace, ?_, rfl⟩
          simp only [_process_single_lead, hsec, hc, hval, if_true, hlid, hA]
    · have hval' : (pyTruthy (pyGet (cleanData lead) "instantly_lead_id") &&
          is_valid_uuid (pyGet (cleanData lead) "instantly_lead_id")) = false := by
        simpa using hval
      obtain ⟨⟨res2, trace2⟩, hres⟩ := scenarioB_ok env
        (pyGet (cleanData lead) "instantly_lead_id") (hasEmailMarkOf lead)
        (normEmail lead) (cleanData lead) cId hcreated
      cases res2 with
      | done op newId =>
          refine ⟨LeadOutcome.ok (pyGet (cleanData lead) "id") op newId
            (if op == "Create" || op == "Update" || op == "Link"
             then some cId else Option.none),
            RemoteCall.resolveCampaign (campaignNameOf lead) :: trace2, ?_, rfl⟩
          simp only [_process_single_lead, hsec, hc, hval', Bool.false_eq_true,
            if_false, hres]
      | failed err =>
          refine ⟨LeadOutcome.failed (pyGet (cleanData lead) "id") err,
            RemoteCall.resolveCampaign (campaignNameOf lead) :: trace2, ?_, rfl⟩
          simp only [_process_single_lead, hsec, hc, hval', Bool.false_eq_true,
            if_false, hres]

theorem process_single_lead_total_outcome_witness :
    ∃ out trace,
      _process_single_lead trivialEnv (PyVal.dict [("id", PyVal.str "rec1")])
        [("instantly_key", PyVal.str "k")] = Except.ok (out, trace) ∧
      out.airtableId = pyGet (cleanData (PyVal.dict [("id", PyVal.str "rec1")])) "id" :=
  process_single_lead_total_outcome trivialEnv (PyVal.dict [("id", PyVal.str "rec1")])
    [("instantly_key", PyVal.str "k")] (PyVal.str "k")
    (Or.inr ⟨[("id", PyVal.str "rec1")], rfl⟩) rfl
    (fun lid d hd => by simp [trivialEnv] at hd)
    (fun cid payload h => by simp [trivialEnv] at h)

/-- C3 counterexample: on a secrets dictionary without `instantly_key`,
`_process_single_lead` raises `KeyError` past its boundary (line 85,
`api_key = secrets["instantly_key"]`) instead of returning a structured
outcome. -/
theorem process_single_lead_missing_secret_raises :
    _process_single_lead trivialEnv (PyVal.dict [("id", PyVal.str "rec1")]) [] =
      Except.error "KeyError: instantly_key" := rfl

/-- C1: a pending lead with no (or invalid) campaign-lead pointer, the
email-available mark set and a non-empty email, whose email is already
present remotely (the Campaign Client's search-by-email finds a lead),
results in operation Link: the found remote id becomes the new
`instantly_lead_id`, and the issued remote calls are exactly the campaign
resolution and one search — no create and no patch call. -/
theorem reconciler_link_when_email_exists_remote
    (env : RecEnv) (lead : PyVal) (secrets : List (String × PyVal)) (k : PyVal)
    (e cId : String) (found : PyVal) (serr : Option String)
    (hsec : lookupStr secrets "instantly_key" = some k)
    (hid : (pyTruthy (pyGet (cleanData lead) "instantly_lead_id") &&
        is_valid_uuid (pyGet (cleanData lead) "instantly_lead_id")) = false)
    (hmark : hasEmailMarkOf lead = true)
    (hemail : normEmail lead = some e)
    (hc : env.findOrCreateCampaign (campaignNameOf lead) = some cId)
    (hsearch : env.searchLeadByEmail e (some cId) = (found, serr))
    (hfound : pyTruthy found = true) :
    _process_single_lead env lead secrets =
      Except.ok (LeadOutcome.ok (pyGet (cleanData lead) "id") "Link"
        (pyGet found "id") (some cId),
        [RemoteCall.resolveCampaign (campaignNameOf lead),
         RemoteCall.searchEmail e (some cId)]) := by
  simp only [_process_single_lead, hsec, hc, hid, Bool.false_eq_true, if_false,
    scenarioB, hemail, hmark, hsearch, hfound, if_true]
  rfl

/-- Environment for the C1 instance: campaign resolution yields `"c1"`, the
search-by-email finds a remote lead with id `"L2"`. -/
def linkEnv : RecEnv :=
  ⟨fun _ => some "c1",
   fun _ => (Option.none, Option.none),
   fun _ _ => (PyVal.dict [("id", PyVal.str "L2")], Option.none),
   fun _ _ => (true, Option.none),
   fun _ => (true, Option.none),
   fun _ _ => (0, [], Option.none)⟩

theorem reconciler_link_when_email_exists_remote_witness :
    _process_single_lead linkEnv
        (PyVal.dict [("id", PyVal.str "rec1"), ("email_available", PyVal.str "1"),
          ("key_contact_email", PyVal.str " A@B.com"), ("industry", PyVal.str "Plumbing")])
        [("instantly_key", PyVal.str "k")] =
      Except.ok (LeadOutcome.ok (PyVal.str "rec1") "Link" (PyVal.str "L2") (some "c1"),
        [RemoteCall.resolveCampaign "Plumbing - Cold Outreach",
         RemoteCall.searchEmail "a@b.com" (some "c1")]) :=
  reconciler_link_when_email_exists_remote linkEnv
    (PyVal.dict [("id", PyVal.str "rec1"), ("email_available", PyVal.str "1"),
      ("key_contact_email", PyVal.str " A@B.com"), ("industry", PyVal.str "Plumbing")])
    [("instantly_key", PyVal.str "k")] (PyVal.str "k") "a@b.com" "c1"
    (PyVal.dict [("id", PyVal.str "L2")]) Option.none rfl rfl rfl rfl rfl rfl rfl

/-- C10: campaign resolution is unconditionally the first step of
`_process_single_lead`: whatever the lead looks like (in particular a lead
with no email whose only possible operation would be Delete or Skip), if the
Campaign Directory yields no identifier the outcome is Failed with the
"No campaign available" error, and the campaign resolution is the only
remote operation issued — no scenario branch runs. -/
theorem campaign_resolution_is_first_step
    (env : RecEnv) (lead : PyVal) (secrets : List (String × PyVal)) (k : PyVal)
    (hsec : lookupStr secrets "instantly_key" = some k)
    (hc : env.findOrCreateCampaign (campaignNameOf lead) = Option.none) :
    _process_single_lead env lead secrets =
      Except.ok (LeadOutcome.failed (pyGet (cleanData lead) "id")
        ("Create Failed: No campaign available for \x27" ++ campaignNameOf lead ++
         "\x27 (check Instantly API key / rate limit / permissions)"),
        [RemoteCall.resolveCampaign (campaignNameOf lead)]) := by
  simp only [_process_single_lead, hsec, hc]

theorem campaign_resolution_is_first_step_witness :
    _process_single_lead trivialEnv (PyVal.dict [("id", PyVal.str "r2")])
        [("instantly_key", PyVal.str "k")] =
      Except.ok (LeadOutcome.failed (PyVal.str "r2")
        ("Create Failed: No campaign available for \x27Generic - Cold Outreach\x27" ++
         " (check Instantly API key / rate limit / permissions)"),
        [RemoteCall.resolveCampaign "Generic - Cold Outreach"]) :=
  campaign_resolution_is_first_step trivialEnv (PyVal.dict [("id", PyVal.str "r2")])
    [("instantly_key", PyVal.str "k")] (PyVal.str "k") rfl rfl

/-! ## Orchestrator result processing (sync_manager.py: `sync_pending_leads`
step 3, and `cleanup_bad_leads`) -/

/-- The datastore update built for one Reconciler outcome
(`sync_pending_leads`, the results loop): on Success the fields advance
`last_synced_at`, set `instantly_statuts` ("Success" for Create/Update/Link,
cleared for Delete/Skip) and persist the new pointer fields; on failure the
only field written is `instantly_statuts = "Failed"` — `last_synced_at` is
left untouched so the lead stays pending. -/
def buildSyncUpdate (timestampNow : String) (res : LeadOutcome) :
    PyVal × List (String × PyVal) :=
  match res with
  | LeadOutcome.ok aid op newId campaignId =>
      (aid,
        [("last_synced_at", PyVal.str timestampNow),
         ("instantly_statuts",
          if op == "Create" || op == "Update" || op == "Link"
          then PyVal.str "Success" else PyVal.none),
         ("instantly_lead_id", newId),
         ("instantly_campaign_id",
          match campaignId with
          | some c => PyVal.str c
          | Option.none => PyVal.none)])
  | LeadOutcome.failed aid _ => (aid, [("instantly_statuts", PyVal.str "Failed")])

/-- The full datastore batch of `sync_pending_leads`. -/
def buildSyncUpdates (timestampNow : String) (results : List LeadOutcome) :
    List (PyVal × List (String × PyVal)) :=
  results.map (buildSyncUpdate timestampNow)

/-- Embeds `delete_lead_from_instantly` (instantly.py) at its boundary: a falsy or
non-UUID-shaped id fails without any network call; otherwise the
environment answers the DELETE. -/
def delete_lead_from_instantly (env : RecEnv) (leadId : PyVal) :
    (Bool × Option String) × List RemoteCall :=
  if !pyTruthy leadId then ((false, some "Missing api_key or lead_id"), [])
  else if !is_valid_uuid leadId then
    ((false, some ("Invalid Lead ID format (not a UUID): " ++ pyStr leadId)), [])
  else
    match leadId with
    | PyVal.str lid => (env.deleteLead lid, [RemoteCall.deleteLead lid])
    | _ => ((false, some ""), []) -- unreachable: is_valid_uuid accepts only strings

/-- Result dict of `_process_bad_lead`: the datastore id, whether a remote
delete succeeded, and the error (if any) of the cleanup attempt. -/
structure BadLeadRes where
  id : PyVal
  deleted : Bool
  error : Option String
deriving Repr

/-- Embeds `_process_bad_lead` (sync_manager.py): remove a bad lead from the
campaign platform — by its valid `instantly_lead_id` when available (a
failed delete whose error mentions "not found" counts as already gone),
else by searching its email; any other delete/search error is recorded in
the `error` field. -/
def _process_bad_lead (env : RecEnv) (lead : PyVal) :
    BadLeadRes × List RemoteCall :=
  let clean := sanitize_for_json (if pyTruthy lead then lead else PyVal.dict [])
  let airtableId := pyGet clean "id"
  let instantlyId := pyGet clean "instantly_lead_id"
  let emailVal :=
    match pyGet clean "key_contact_email" with
    | PyVal.str s =>
        if strTrim s == "" then PyVal.none else PyVal.str (strLower (strTrim s))
    | other => other
  if pyTruthy instantlyId && is_valid_uuid instantlyId then
    match instantlyId with
    | PyVal.str iid =>
        let d := env.deleteLead iid
        if d.1 then (⟨airtableId, true, Option.none⟩, [RemoteCall.deleteLead iid])
        else if strContains (strLower (optErrStr d.2)) "not found" then
          (⟨airtableId, false, Option.none⟩, [RemoteCall.deleteLead iid])
        else (⟨airtableId, false, d.2⟩, [RemoteCall.deleteLead iid])
    | _ => (⟨airtableId, false, Option.none⟩, []) -- unreachable: uuid ⇒ string
  else if pyTruthy emailVal then
    let s := env.searchLeadByEmail (pyStr emailVal) Option.none
    let searchTrace := [RemoteCall.searchEmail (pyStr emailVal) Option.none]
    if pyTruthy s.1 then
      -- a truthy search hit is a lead object per the spec-modelled client (4.3)
      let foundId := pyGet s.1 "id"
      if pyTruthy foundId then
        let del := delete_lead_from_instantly env foundId
        if del.1.1 then (⟨airtableId, true, Option.none⟩, searchTrace ++ del.2)
        else (⟨airtableId, false, del.1.2⟩, searchTrace ++ del.2)
      else (⟨airtableId, false, Option.none⟩, searchTrace)
    else
      match s.2 with
      | some serr => (⟨airtableId, false, some serr⟩, searchTrace)
      | Option.none => (⟨airtableId, false, Option.none⟩, searchTrace)
  else (⟨airtableId, false, Option.none⟩, [])

/-- The datastore update `cleanup_bad_leads` builds for one cleanup result
(paired with the lead's verification status): skipped entirely for a falsy
id; otherwise the fields persist the verification status, advance
`last_synced_at`, clear both campaign pointers and set
`instantly_statuts = "Blocked"` — the same fields whether or not the
cleanup attempt recorded an error. -/
def buildBadLeadUpdate (timestampNow : String) (res : BadLeadRes)
    (vStatus : String) : Option (PyVal × List (String × PyVal)) :=
  if !pyTruthy res.id then Option.none
  else
    some (res.id,
      [("verification_status", PyVal.str vStatus),
       ("last_synced_at", PyVal.str timestampNow),
       ("instantly_lead_id", PyVal.none),
       ("instantly_campaign_id", PyVal.none),
       ("instantly_statuts", PyVal.str "Blocked")])

/-- The full datastore batch of `cleanup_bad_leads`. -/
def buildBadLeadUpdates (timestampNow : String)
    (results : List (BadLeadRes × String)) :
    List (PyVal × List (String × PyVal)) :=
  results.filterMap (fun rv => buildBadLeadUpdate timestampNow rv.1 rv.2)

/-- Whether a built update writes the field `k`. -/
def fieldsHaveKey (fields : List (String × PyVal)) (k : String) : Bool :=
  fields.any (fun kv => kv.1 == k)

/-- Whether a Reconciler outcome is a Success dict. -/
def LeadOutcome.isSuccess : LeadOutcome → Bool
  | LeadOutcome.ok _ _ _ _ => true
  | LeadOutcome.failed _ _ => false

/-- C2 (amended): on the `sync_pending_leads` path, `last_synced_at` is
advanced in a lead's batch-update entry exactly when its outcome is
Success — a failed reconciliation writes only `instantly_statuts = "Failed"`
and leaves the lead pending (per-lead iff, plus the batch is exactly the
per-lead updates in order). On the `cleanup_bad_leads` path, however,
EVERY emitted update — per lead and across any batch — advances
`last_synced_at` (and sets status Blocked), whether or not the cleanup
attempt failed; the as-stated claim fails there, see the counterexample. -/
theorem last_synced_at_advance_policy (ts : String) :
    (∀ res : LeadOutcome,
      fieldsHaveKey (buildSyncUpdate ts res).2 "last_synced_at" = res.isSuccess) ∧
    (∀ (results : List LeadOutcome) (i : Nat) (h : i < results.length),
      (buildSyncUpdates ts results).get? i =
        some (buildSyncUpdate ts (results.get ⟨i, h⟩))) ∧
    (∀ (res : BadLeadRes) (v : String) (upd : PyVal × List (String × PyVal)),
      buildBadLeadUpdate ts res v = some upd →
      fieldsHaveKey upd.2 "last_synced_at" = true) ∧
    (∀ (results : List (BadLeadRes × String)) (upd : PyVal × List (String × PyVal)),
      upd ∈ buildBadLeadUpdates ts results →
      fieldsHaveKey upd.2 "last_synced_at" = true) := by
  have hbad : ∀ (res : BadLeadRes) (v : String) (upd : PyVal × List (String × PyVal)),
      buildBadLeadUpdate ts res v = some upd →
      fieldsHaveKey upd.2 "last_synced_at" = true := by
    intro res v upd hupd
    by_cases hid : pyTruthy res.id = true
    · simp only [buildBadLeadUpdate, hid, Bool.not_true, Bool.false_eq_true,
        if_false, Option.some.injEq] at hupd
      subst hupd
      simp [fieldsHaveKey]
    · have hid' : pyTruthy res.id = false := by simpa using hid
      simp [buildBadLeadUpdate, hid'] at hupd
  refine ⟨?_, ?_, hbad, ?_⟩
  · intro res
    cases res with
    | ok aid op newId campaignId => simp [buildSyncUpdate, fieldsHaveKey, LeadOutcome.isSuccess]
    | failed aid err => simp [buildSyncUpdate, fieldsHaveKey, LeadOutcome.isSuccess]
  · intro results i h
    simp [buildSyncUpdates]
    exact ⟨results[i], List.getElem?_eq_getElem h, rfl⟩
  · intro results upd hmem
    obtain ⟨⟨res, v⟩, -, hupd⟩ := List.mem_filterMap.mp hmem
    exact hbad res v upd hupd

theorem last_synced_at_advance_policy_witness :
    fieldsHaveKey (buildSyncUpdate "2026-01-01T00:00:00+00:00"
        (LeadOutcome.failed (PyVal.str "recX") "boom")).2 "last_synced_at" = false ∧
    fieldsHaveKey
      ((buildBadLeadUpdate "2026-01-01T00:00:00+00:00"
          ⟨PyVal.str "recY", false, some "err"⟩ "invalid").getD (PyVal.none, [])).2
        "last_synced_at" = true := by
  constructor
  · exact (last_synced_at_advance_policy "2026-01-01T00:00:00+00:00").1
      (LeadOutcome.failed (PyVal.str "recX") "boom")
  · exact (last_synced_at_advance_policy "2026-01-01T00:00:00+00:00").2.2.1
      ⟨PyVal.str "recY", false, some "err"⟩ "invalid" _ rfl

/-- C2 counterexample: a bad lead whose cleanup attempt FAILS (the remote
delete returns a 500-style error, so the cleanup result carries an error)
still gets `last_synced_at` advanced in the `cleanup_bad_leads` batch,
contradicting the claim that a failed cleanup attempt must not advance it. -/
theorem cleanup_failure_advances_last_synced_at :
    ((_process_bad_lead
        ⟨fun _ => Option.none, fun _ => (Option.none, Option.none),
         fun _ _ => (PyVal.none, Option.none), fun _ _ => (false, Option.none),
         fun _ => (false, some "Instantly lead delete failed: 500 - boom"),
         fun _ _ => (0, [], Option.none)⟩
        (PyVal.dict [("id", PyVal.str "recBad"),
          ("instantly_lead_id",
           PyVal.str "550e8400-e29b-41d4-a716-446655440000")])).1.error).isSome = true ∧
    (buildBadLeadUpdates "2026-01-01T00:00:00+00:00"
        [((_process_bad_lead
            ⟨fun _ => Option.none, fun _ => (Option.none, Option.none),
             fun _ _ => (PyVal.none, Option.none), fun _ _ => (false, Option.none),
             fun _ => (false, some "Instantly lead delete failed: 500 - boom"),
             fun _ _ => (0, [], Option.none)⟩
            (PyVal.dict [("id", PyVal.str "recBad"),
              ("instantly_lead_id",
               PyVal.str "550e8400-e29b-41d4-a716-446655440000")])).1, "invalid")]).map
      (fun u => fieldsHaveKey u.2 "last_synced_at") = [true] := by
  constructor
  · rfl
  · rfl

/-- C7: the Sanitizer is idempotent — sanitizing twice equals sanitizing
once for every value (it is total by construction: a structurally recursive
function, hence it never raises) — and the concrete mapping example holds:
non-finite numbers become null and everything else is preserved. -/
theorem sanitize_idempotent_and_example :
    (∀ v, sanitize_for_json (sanitize_for_json v) = sanitize_for_json v) ∧
    sanitize_for_json (PyVal.dict [("a", PyVal.nan),
        ("b", PyVal.list [PyVal.inf, PyVal.str "ok"])]) =
      PyVal.dict [("a", PyVal.none), ("b", PyVal.list [PyVal.none, PyVal.str "ok"])] :=
  ⟨sanitize_idem, rfl⟩

/-- C9: the campaign-lead-id validity gate accepts exactly the strings of
length 36 that split on `-` into 5 groups; `"not-a-uuid"` is rejected, the
sample canonical UUID accepted, and non-strings rejected (part of the
characterization); and `get_lead_from_instantly` treats an invalid-shaped
id as invalid without issuing any network attempt, returning the
descriptive invalid-format error instead. -/
theorem uuid_gate_characterization :
    (∀ v, is_valid_uuid v = true ↔
      ∃ s, v = PyVal.str s ∧ s.data.length = 36 ∧ (pySplit '-' s).length = 5) ∧
    is_valid_uuid (PyVal.str "not-a-uuid") = false ∧
    is_valid_uuid (PyVal.str "550e8400-e29b-41d4-a716-446655440000") = true ∧
    (∀ (env : Nat → AttemptOutcome) (apiKey : String) (leadId : PyVal),
      (apiKey == "" || !pyTruthy leadId) = false → is_valid_uuid leadId = false →
      (get_lead_from_instantly env apiKey leadId).2 = 0 ∧
      (get_lead_from_instantly env apiKey leadId).1 =
        (Option.none, some ("Invalid Lead ID format: " ++ pyStr leadId))) := by
  refine ⟨?_, by decide, by decide, ?_⟩
  · intro v
    constructor
    · exact valid_uuid_is_str
    · rintro ⟨s, rfl, hlen, hsplit⟩
      simp [is_valid_uuid, hlen, hsplit]
  · intro env apiKey leadId hkey hval
    constructor <;> simp [get_lead_from_instantly, hkey, hval]

theorem uuid_gate_characterization_witness :
    (get_lead_from_instantly (fun _ => AttemptOutcome.exc "x") "k"
        (PyVal.str "not-a-uuid")).2 = 0 ∧
    (get_lead_from_instantly (fun _ => AttemptOutcome.exc "x") "k"
        (PyVal.str "not-a-uuid")).1 =
      (Option.none, some "Invalid Lead ID format: not-a-uuid") :=
  uuid_gate_characterization.2.2.2 (fun _ => AttemptOutcome.exc "x") "k"
    (PyVal.str "not-a-uuid") (by decide) (by decide)

end LeadSync
